import Mathlib

/-!
Shallow embedding of `src/bw2op_totp.py` (Bitwarden → 1Password TOTP patcher).

Python strings are modelled as `List Char` (`PyStr`); Python `None` as
`Option.none`.  The external 1Password CLI is modelled as an oracle
`Exec : List PyStr → ExecResult` mapping an argv to success or to a failed
call carrying its stderr text, and the commands a run issues are collected
in a trace.
-/

/-- A Python string, modelled as its list of characters. -/
abbrev PyStr := List Char

/-- Coerce a Lean string literal to the `PyStr` model. -/
def pystr (s : String) : PyStr := s.data

/-- Code points of the characters Python's `str.strip()` removes
(`str.isspace` whitespace). -/
def pySpaceCodes : List Nat :=
  [0x09, 0x0a, 0x0b, 0x0c, 0x0d, 0x1c, 0x1d, 0x1e, 0x1f, 0x20,
   0x85, 0xa0, 0x1680,
   0x2000, 0x2001, 0x2002, 0x2003, 0x2004, 0x2005, 0x2006, 0x2007,
   0x2008, 0x2009, 0x200a, 0x2028, 0x2029, 0x202f, 0x205f, 0x3000]

/-- Whether `str.strip()` treats `c` as whitespace. -/
def pyIsSpace (c : Char) : Bool := pySpaceCodes.contains c.toNat

/-- Python `s.strip()`: drop leading then trailing whitespace. -/
def pyStrip (s : PyStr) : PyStr :=
  (((s.dropWhile pyIsSpace).reverse.dropWhile pyIsSpace)).reverse

/-- Python `str.lower()` on one character (ASCII range; the source only
feeds the result to an ASCII scheme comparison). -/
def pyLowerChar (c : Char) : Char :=
  if 'A' ≤ c ∧ c ≤ 'Z' then Char.ofNat (c.toNat + 32) else c

/-- Python `s.lower()`. -/
def pyLower (s : PyStr) : PyStr := s.map pyLowerChar

/-- Characters `urllib.parse.quote` leaves unescaped with its default
`safe='/'`: ASCII alphanumerics, `_ . - ~` and `/`. -/
def quoteSafeChar (c : Char) : Bool :=
  ('A' ≤ c && c ≤ 'Z') || ('a' ≤ c && c ≤ 'z') || ('0' ≤ c && c ≤ '9') ||
  c == '_' || c == '.' || c == '-' || c == '~' || c == '/'

/-- Upper-case hexadecimal digit of `n < 16`. -/
def hexDigit (n : Nat) : Char :=
  if n < 10 then Char.ofNat ('0'.toNat + n) else Char.ofNat ('A'.toNat + n - 10)

/-- Percent-escape of one byte, e.g. `%20`. -/
def pctByte (b : Nat) : PyStr := ['%', hexDigit (b / 16), hexDigit (b % 16)]

/-- UTF-8 encoding of a code point, as byte values. -/
def utf8Bytes (n : Nat) : List Nat :=
  if n < 0x80 then [n]
  else if n < 0x800 then [0xc0 + n / 0x40, 0x80 + n % 0x40]
  else if n < 0x10000 then
    [0xe0 + n / 0x1000, 0x80 + (n / 0x40) % 0x40, 0x80 + n % 0x40]
  else
    [0xf0 + n / 0x40000, 0x80 + (n / 0x1000) % 0x40,
     0x80 + (n / 0x40) % 0x40, 0x80 + n % 0x40]

/-- `urllib.parse.quote(s)` (default `safe='/'`): safe characters pass
through, every other character is UTF-8 encoded and percent-escaped. -/
def pyQuote (s : PyStr) : PyStr :=
  s.flatMap fun c =>
    if quoteSafeChar c then [c] else (utf8Bytes c.toNat).flatMap pctByte

/-- `construct_otp_url(secret, label)` from `src/bw2op_totp.py`:
strip the secret; if it already starts (case-insensitively) with
`otpauth://`, return the stripped secret; otherwise delete spaces and
hyphens from it, percent-encode the label, and assemble the URI. -/
def construct_otp_url (secret label : PyStr) : PyStr :=
  let secret := pyStrip secret
  if (pystr "otpauth://").isPrefixOf (pyLower secret) then
    secret
  else
    -- `.replace(" ", "").replace("-", "")`: each removes every occurrence
    -- of a single character.
    let clean_secret := (secret.filter (· ≠ ' ')).filter (· ≠ '-')
    let encoded_label := pyQuote label
    pystr "otpauth://totp/" ++ encoded_label ++ pystr "?secret=" ++
      clean_secret ++ pystr "&issuer=BitwardenMigration"

/-- Python's substring operator `needle in hay`: some suffix of `hay`
starts with `needle`. -/
def containsSub (needle : PyStr) : PyStr → Bool
  | [] => needle.isPrefixOf []
  | c :: rest => needle.isPrefixOf (c :: rest) || containsSub needle rest

/-- One entry of the vault lookup built by `get_op_items`: the item's
opaque id and its username (already normalized there: `None` → `""`). -/
structure Candidate where
  id : PyStr
  username : PyStr
deriving DecidableEq

/-- The lookup `get_op_items` returns: a Python dict keyed by item title,
modelled as an association list (first binding wins, as in a dict, whose
keys are unique anyway).  A key is `Option PyStr` because
`item.get('title')` can be `None`. -/
abbrev Index := List (Option PyStr × List Candidate)

/-- Python `title in lookup` / `lookup[title]` combined: first binding of
the key, if any. -/
def lookupIdx (t : Option PyStr) : Index → Option (List Candidate)
  | [] => none
  | (k, v) :: rest => if k = t then some v else lookupIdx t rest

/-- The candidate scan inside `find_match`: first candidate whose
`username` equals the target returns its `id`. -/
def scanCands (target : PyStr) : List Candidate → Option PyStr
  | [] => none
  | c :: rest => if c.username = target then some c.id else scanCands target rest

/-- `find_match(title, bw_username, op_lookup)` from `src/bw2op_totp.py`:
`None` if the title is not a key of the lookup, else the id of the first
candidate under that title whose username equals the normalized input
username (`bw_username if bw_username else ""`: falsy, i.e. `None` or
`""`, becomes `""`). -/
def find_match (title : Option PyStr) (bw_username : Option PyStr)
    (op_lookup : Index) : Option PyStr :=
  match lookupIdx title op_lookup with
  | none => none
  | some candidates =>
    let target_user : PyStr :=
      match bw_username with
      | none => []
      | some u => if u = [] then [] else u
    scanCands target_user candidates

/-- The `login` object of a Bitwarden export item. -/
structure BwLogin where
  username : Option PyStr
  totp : Option PyStr
deriving DecidableEq

/-- One item of the Bitwarden export.  `login = none` models an absent (or
falsy, i.e. empty-dict) login object, which the loop's truthiness test
`item.get('login')` skips. -/
structure BwItem where
  name : Option PyStr
  login : Option BwLogin
deriving DecidableEq

/-- The `stats` dict of `main`. -/
structure Stats where
  found_in_bw : Nat
  matched : Nat
  success : Nat
  fail : Nat
deriving DecidableEq

/-- Outcome of one external `subprocess.run(..., check=True)` call:
success, or `CalledProcessError` carrying the command's stderr text. -/
inductive ExecResult where
  | ok : ExecResult
  | err (stderr : PyStr) : ExecResult
deriving DecidableEq

/-- The external 1Password CLI, as an oracle from argv to outcome. -/
abbrev Exec := List PyStr → ExecResult

/-- Argv of the clear-mode mutation
`op item edit <id> "one-time password[delete]"`. -/
def deleteCmd (op_id : PyStr) : List PyStr :=
  [pystr "op", pystr "item", pystr "edit", op_id, pystr "one-time password[delete]"]

/-- Argv of the update-mode mutation
`op item edit <id> "one-time password[otp]=<value>"`. -/
def updateCmd (op_id otp_value : PyStr) : List PyStr :=
  [pystr "op", pystr "item", pystr "edit", op_id,
   pystr "one-time password[otp]=" ++ otp_value]

/-- Argv of the read-only version probe `op --version`. -/
def versionCmd : List PyStr := [pystr "op", pystr "--version"]

/-- Argv of the read-only listing query
`op item list --vault <vault> --format json`. -/
def listCmd (vault : PyStr) : List PyStr :=
  [pystr "op", pystr "item", pystr "list", pystr "--vault", vault,
   pystr "--format", pystr "json"]

/-- `OP_VAULT_NAME` from the configuration block. -/
def OP_VAULT_NAME : PyStr := pystr "Private"

/-- State after processing one source item: the updated counters and
orphan list, plus the external commands this item issued. -/
structure StepOut where
  stats : Stats
  orphans : List PyStr
  cmds : List (List PyStr)
deriving DecidableEq

/-- Python `f"{x}"` of a possibly-`None` string. -/
def fmtOpt : Option PyStr → PyStr
  | none => pystr "None"
  | some s => s

/-- The orphan descriptor `f"{title} (User: {bw_username})"`. -/
def orphanDesc (title u : Option PyStr) : PyStr :=
  fmtOpt title ++ pystr " (User: " ++ fmtOpt u ++ pystr ")"

/-- One iteration of the per-record loop of `main`, for the item `item`,
given the current counters and orphan list.  Follows the source: skip
unless `item.get('login')` and `item['login'].get('totp')` are truthy;
count as discovered; match; on a truthy matched id either clear or update
per the mode switches (`if op_id:` treats an empty id as unmatched);
otherwise append an orphan descriptor. -/
def processItem (dry_run clear : Bool) (exec : Exec) (op_lookup : Index)
    (item : BwItem) (stats : Stats) (orphans : List PyStr) : StepOut :=
  match item.login with
  | none => ⟨stats, orphans, []⟩
  | some login =>
    match login.totp with
    | none => ⟨stats, orphans, []⟩
    | some totp =>
      if totp = [] then ⟨stats, orphans, []⟩
      else
        let stats := { stats with found_in_bw := stats.found_in_bw + 1 }
        let title := item.name
        let bw_username := login.username
        match find_match title bw_username op_lookup with
        | some op_id =>
          if op_id = [] then
            -- Python truthiness: an empty id fails `if op_id:`.
            ⟨stats, orphans ++ [orphanDesc title bw_username], []⟩
          else
            let stats := { stats with matched := stats.matched + 1 }
            if clear then
              if dry_run then ⟨stats, orphans, []⟩
              else
                let cmd := deleteCmd op_id
                match exec cmd with
                | .ok => ⟨{ stats with success := stats.success + 1 }, orphans, [cmd]⟩
                | .err stderr =>
                  if containsSub (pystr "field not found") stderr then
                    ⟨stats, orphans, [cmd]⟩
                  else
                    ⟨{ stats with fail := stats.fail + 1 }, orphans, [cmd]⟩
            else
              -- A `None` title paired with a match would raise `TypeError`
              -- inside `urllib.parse.quote`; the label is modelled as the
              -- title string (no theorem below inspects this value).
              let otp_value := construct_otp_url totp (title.getD [])
              if dry_run then ⟨stats, orphans, []⟩
              else
                let cmd := updateCmd op_id otp_value
                match exec cmd with
                | .ok => ⟨{ stats with success := stats.success + 1 }, orphans, [cmd]⟩
                | .err _ => ⟨{ stats with fail := stats.fail + 1 }, orphans, [cmd]⟩
        | none => ⟨stats, orphans ++ [orphanDesc title bw_username], []⟩

/-- The whole per-record loop, threading counters, orphans and the
accumulated command trace through `processItem`. -/
def runLoop (dry_run clear : Bool) (exec : Exec) (op_lookup : Index) :
    List BwItem → Stats → List PyStr → List (List PyStr) → StepOut
  | [], stats, orphans, cmds => ⟨stats, orphans, cmds⟩
  | item :: rest, stats, orphans, cmds =>
    let step := processItem dry_run clear exec op_lookup item stats orphans
    runLoop dry_run clear exec op_lookup rest step.stats step.orphans (cmds ++ step.cmds)

/-- Result of a run of `main` past argument validation: aborted at the
live-mode confirmation gate, or completed with final statistics; either
way with the trace of external commands issued. -/
inductive RunOutcome where
  | aborted (cmds : List (List PyStr))
  | finished (stats : Stats) (orphans : List PyStr) (cmds : List (List PyStr))
deriving DecidableEq

/-- `main` from the live-mode confirmation gate onward (argument and file
validation, prints, and the summary are outside the model).  In live mode
a confirmation input whose lowercase form is not `yes` exits at once;
otherwise `get_op_items` issues its two read-only queries (whose parsed
result is the `op_lookup` parameter) and the loop runs from zeroed
counters. -/
def mainRun (dry_run clear : Bool) (confirm : PyStr) (exec : Exec)
    (op_lookup : Index) (items : List BwItem) : RunOutcome :=
  if !dry_run && !(pyLower confirm = pystr "yes") then
    .aborted []
  else
    let r := runLoop dry_run clear exec op_lookup items ⟨0, 0, 0, 0⟩ []
      [versionCmd, listCmd OP_VAULT_NAME]
    .finished r.stats r.orphans r.cmds

/-! ### Helper lemmas -/

lemma scanCands_eq_find (target : PyStr) (cs : List Candidate) :
    scanCands target cs =
      (cs.find? fun c => c.username = target).map Candidate.id := by
  induction cs with
  | nil => rfl
  | cons c rest ih =>
    by_cases h : c.username = target
    · simp [scanCands, List.find?, h]
    · simp [scanCands, List.find?, h, ih]

/-! ### C1: the matching contract of `find_match` -/

/-- C1:  For every title, username and index: an absent title yields
`none` (unmatched); otherwise the input username is normalized
(`none`/absent → `""`) and the result is the id of the first candidate,
in index order, whose stored username equals it exactly — `none` when no
candidate's username is equal.  (`Option.bind` is `none` exactly on the
absent-title case, and `List.find?` is the first-hit scan.) -/
theorem find_match_matching_contract (title bw_username : Option PyStr) (idx : Index) :
    find_match title bw_username idx =
      (lookupIdx title idx).bind fun cs =>
        (cs.find? fun c => c.username = bw_username.getD []).map Candidate.id := by
  unfold find_match
  cases h : lookupIdx title idx with
  | none => rfl
  | some cs =>
    have htarget :
        (match bw_username with
          | none => ([] : PyStr)
          | some u => if u = [] then [] else u) = bw_username.getD [] := by
      cases bw_username with
      | none => rfl
      | some u => by_cases hu : u = [] <;> simp [hu]
    rw [htarget]
    show scanCands (bw_username.getD []) cs = _
    rw [scanCands_eq_find]
    rfl

/-! ### C6: the concrete URI construction example -/

/-- C6:  `construct_otp_url "ABCD EFGH-1234" "My Login"` strips the
embedded space and hyphen from the secret, percent-encodes the label, and
tags the fixed issuer. -/
theorem construct_otp_url_concrete_example :
    construct_otp_url (pystr "ABCD EFGH-1234") (pystr "My Login") =
      pystr "otpauth://totp/My%20Login?secret=ABCDEFGH1234&issuer=BitwardenMigration" := by
  decide

/-! ### C3: pass-through of secrets that are already otpauth URIs -/

/-- C3 counterexample:  A secret with surrounding whitespace that
begins (after trimming, case-insensitively) with `otpauth://` is *not*
returned as the original input string: the leading space is gone. -/
theorem construct_otp_url_not_input_unchanged :
    construct_otp_url (pystr " otpauth://x") (pystr "L") ≠ pystr " otpauth://x" := by
  decide

/-- C3 amended:  For every secret that, after trimming surrounding
whitespace, begins case-insensitively with `otpauth://`,
`construct_otp_url` returns the *trimmed* secret, for any label (equal to
the original input exactly when the input carries no surrounding
whitespace). -/
theorem construct_otp_url_passthrough (secret label : PyStr)
    (h : (pystr "otpauth://").isPrefixOf (pyLower (pyStrip secret)) = true) :
    construct_otp_url secret label = pyStrip secret := by
  unfold construct_otp_url
  simp [h]

/-! ### Lemmas about `pyStrip` and the constructed URI -/

lemma head?_dropWhile_false (p : Char → Bool) (l : PyStr) (c : Char)
    (h : (l.dropWhile p).head? = some c) : p c = false := by
  have hx := List.head?_dropWhile_not p l
  rw [h] at hx
  exact hx

lemma pyStrip_as_rdrop (s : PyStr) :
    pyStrip s = List.rdropWhile pyIsSpace (s.dropWhile pyIsSpace) := rfl

lemma pyStrip_head_not_space (s : PyStr) (c : Char)
    (h : (pyStrip s).head? = some c) : pyIsSpace c = false := by
  rw [pyStrip_as_rdrop] at h
  obtain ⟨r, hr⟩ := List.rdropWhile_prefix pyIsSpace (s.dropWhile pyIsSpace)
  cases hm : List.rdropWhile pyIsSpace (s.dropWhile pyIsSpace) with
  | nil => rw [hm] at h; simp at h
  | cons a t =>
    rw [hm] at h
    simp only [List.head?_cons, Option.some.injEq] at h
    apply head?_dropWhile_false pyIsSpace s
    rw [← hr, hm]
    simp [h]

lemma pyStrip_getLast_not_space (s : PyStr) (c : Char)
    (h : (pyStrip s).getLast? = some c) : pyIsSpace c = false := by
  unfold pyStrip at h
  rw [List.getLast?_reverse] at h
  exact head?_dropWhile_false _ _ _ h

lemma pyStrip_eq_self (s : PyStr)
    (h1 : ∀ c, s.head? = some c → pyIsSpace c = false)
    (h2 : ∀ c, s.getLast? = some c → pyIsSpace c = false) :
    pyStrip s = s := by
  rw [pyStrip_as_rdrop]
  have hd : s.dropWhile pyIsSpace = s := by
    cases s with
    | nil => rfl
    | cons a t => simp [List.dropWhile_cons, h1 a rfl]
  rw [hd, List.rdropWhile_eq_self_iff]
  intro hl
  have hx := h2 _ (List.getLast?_eq_getLast_of_ne_nil hl)
  simp [hx]

lemma pyStrip_idem (s : PyStr) : pyStrip (pyStrip s) = pyStrip s :=
  pyStrip_eq_self _ (pyStrip_head_not_space s) (pyStrip_getLast_not_space s)

lemma isPrefixOf_append_right (n r : PyStr) : n.isPrefixOf (n ++ r) = true := by
  rw [ List.isPrefixOf_iff_prefix]
  exact ⟨r, rfl⟩

lemma otpUri_getLast (enc clean : PyStr) :
    (pystr "otpauth://totp/" ++ enc ++ pystr "?secret=" ++ clean ++
      pystr "&issuer=BitwardenMigration").getLast? = some 'n' := by
  have hEne : pystr "&issuer=BitwardenMigration" ≠ [] := by decide
  rw [List.getLast?_append_of_ne_nil _ hEne]
  decide

lemma otpUri_strip (enc clean : PyStr) :
    pyStrip (pystr "otpauth://totp/" ++ enc ++ pystr "?secret=" ++ clean ++
        pystr "&issuer=BitwardenMigration") =
      pystr "otpauth://totp/" ++ enc ++ pystr "?secret=" ++ clean ++
        pystr "&issuer=BitwardenMigration" := by
  apply pyStrip_eq_self
  · intro c hc
    have hh : (pystr "otpauth://totp/" ++ enc ++ pystr "?secret=" ++ clean ++
        pystr "&issuer=BitwardenMigration").head? = some 'o' := rfl
    rw [hh] at hc
    cases hc
    decide
  · intro c hc
    rw [otpUri_getLast] at hc
    cases hc
    decide

lemma otpUri_scheme (enc clean : PyStr) :
    (pystr "otpauth://").isPrefixOf
      (pyLower (pystr "otpauth://totp/" ++ enc ++ pystr "?secret=" ++ clean ++
        pystr "&issuer=BitwardenMigration")) = true := by
  have hu : pyLower (pystr "otpauth://totp/" ++ enc ++ pystr "?secret=" ++ clean ++
      pystr "&issuer=BitwardenMigration") =
      pyLower (pystr "otpauth://totp/") ++ pyLower enc ++ pyLower (pystr "?secret=") ++
        pyLower clean ++ pyLower (pystr "&issuer=BitwardenMigration") := by
    simp only [pyLower, List.map_append]
  rw [ List.isPrefixOf_iff_prefix, hu,
    show pyLower (pystr "otpauth://totp/") = pystr "otpauth://" ++ pystr "totp/" from by decide]
  exact (((( List.prefix_append _ _).trans ( List.prefix_append _ _)).trans
    ( List.prefix_append _ _)).trans ( List.prefix_append _ _)).trans
    ( List.prefix_append _ _)

lemma construct_otp_url_of_scheme (secret label : PyStr)
    (h : (pystr "otpauth://").isPrefixOf (pyLower (pyStrip secret)) = true) :
    construct_otp_url secret label = pyStrip secret := by
  unfold construct_otp_url
  simp [h]

lemma construct_otp_url_of_not_scheme (secret label : PyStr)
    (h : (pystr "otpauth://").isPrefixOf (pyLower (pyStrip secret)) = false) :
    construct_otp_url secret label =
      pystr "otpauth://totp/" ++ pyQuote label ++ pystr "?secret=" ++
        ((pyStrip secret).filter fun c => decide (c ≠ ' ') && decide (c ≠ '-')) ++
        pystr "&issuer=BitwardenMigration" := by
  unfold construct_otp_url
  simp only [h, Bool.false_eq_true, if_false]
  rw [List.filter_filter]
  have hx : ((pyStrip secret).filter fun a => decide (a ≠ '-') && decide (a ≠ ' ')) =
      (pyStrip secret).filter fun c => decide (c ≠ ' ') && decide (c ≠ '-') :=
    List.filter_congr fun a _ => Bool.and_comm _ _
  rw [hx]

/-! ### C7: idempotence of the URI constructor -/

/-- C7:  `construct_otp_url` is idempotent: a second application to its
own output (with any label it was built with) is the identity, because
every output begins with the otpauth scheme and is passed through. -/
theorem construct_otp_url_idempotent (s l : PyStr) :
    construct_otp_url (construct_otp_url s l) l = construct_otp_url s l := by
  by_cases h : (pystr "otpauth://").isPrefixOf (pyLower (pyStrip s)) = true
  · rw [construct_otp_url_of_scheme s l h]
    rw [construct_otp_url_of_scheme _ _ (by rw [pyStrip_idem]; exact h), pyStrip_idem]
  · have h' : (pystr "otpauth://").isPrefixOf (pyLower (pyStrip s)) = false :=
      Bool.eq_false_iff.mpr h
    rw [construct_otp_url_of_not_scheme s l h']
    rw [construct_otp_url_of_scheme _ _ (by rw [otpUri_strip]; exact otpUri_scheme _ _)]
    exact otpUri_strip _ _

/-! ### C10: characters removed from and kept in a non-URI secret -/

/-- C10:  For every secret that does not (after trimming) begin with
the otpauth scheme, only space and hyphen characters are removed from it:
the returned URI embeds every remaining character of the trimmed secret
verbatim (`List.filter` keeps them unescaped and in order, so also `&`,
`=`, `?`, `#`), while only the label is percent-encoded. -/
theorem construct_otp_url_secret_verbatim (secret label : PyStr)
    (h : (pystr "otpauth://").isPrefixOf (pyLower (pyStrip secret)) = false) :
    construct_otp_url secret label =
      pystr "otpauth://totp/" ++ pyQuote label ++ pystr "?secret=" ++
        ((pyStrip secret).filter fun c => decide (c ≠ ' ') && decide (c ≠ '-')) ++
        pystr "&issuer=BitwardenMigration" :=
  construct_otp_url_of_not_scheme secret label h

/-- Witness for `construct_otp_url_secret_verbatim`: a secret containing
`& = ? #` keeps them verbatim and unescaped in the query string. -/
theorem construct_otp_url_secret_verbatim_witness :
    (pystr "otpauth://").isPrefixOf (pyLower (pyStrip (pystr "A&B=C?D#E-F G"))) = false ∧
      construct_otp_url (pystr "A&B=C?D#E-F G") (pystr "L") =
        pystr "otpauth://totp/L?secret=" ++
          ((pyStrip (pystr "A&B=C?D#E-F G")).filter
            fun c => decide (c ≠ ' ') && decide (c ≠ '-')) ++
          pystr "&issuer=BitwardenMigration" :=
  ⟨by decide, by
    rw [construct_otp_url_secret_verbatim (pystr "A&B=C?D#E-F G") (pystr "L") (by decide)]
    decide⟩

/-- Witness for `construct_otp_url_passthrough` at a concrete input. -/
theorem construct_otp_url_passthrough_witness :
    (pystr "otpauth://").isPrefixOf (pyLower (pyStrip (pystr "  OTPauth://totp/a?secret=B "))) = true ∧
      construct_otp_url (pystr "  OTPauth://totp/a?secret=B ") (pystr "Site") =
        pyStrip (pystr "  OTPauth://totp/a?secret=B ") :=
  ⟨by decide, construct_otp_url_passthrough _ _ (by decide)⟩

/-! ### Per-record lemmas about the loop body -/

/-- The external CLI oracle that always succeeds (used in witnesses). -/
def okExec : Exec := fun _ => .ok

/-- A one-entry index: title `Example`, candidate `X1` / `alice`. -/
def wIdx : Index := [(some (pystr "Example"), [⟨pystr "X1", pystr "alice"⟩])]

/-- A source item titled `Example` with username `alice` and secret `S`. -/
def wItem : BwItem :=
  ⟨some (pystr "Example"), some ⟨some (pystr "alice"), some (pystr "S")⟩⟩

lemma processItem_matched_frame (dry_run clear : Bool) (exec : Exec) (idx : Index)
    (item : BwItem) (s : Stats) (o : List PyStr) (l : BwLogin) (t id : PyStr)
    (hl : item.login = some l) (ht : l.totp = some t) (hne : t ≠ [])
    (hm : find_match item.name l.username idx = some id) (hid : id ≠ []) :
    (processItem dry_run clear exec idx item s o).stats.found_in_bw = s.found_in_bw + 1 ∧
      (processItem dry_run clear exec idx item s o).stats.matched = s.matched + 1 ∧
      (processItem dry_run clear exec idx item s o).orphans = o := by
  simp only [processItem, hl, ht, hne, hm, hid, if_neg, if_false]
  repeat' split
  all_goals simp_all

lemma processItem_orphan_frame (dry_run clear : Bool) (exec : Exec) (idx : Index)
    (item : BwItem) (s : Stats) (o : List PyStr) (l : BwLogin) (t : PyStr)
    (hl : item.login = some l) (ht : l.totp = some t) (hne : t ≠ [])
    (hm : find_match item.name l.username idx = none ∨
      find_match item.name l.username idx = some []) :
    processItem dry_run clear exec idx item s o =
      ⟨{ s with found_in_bw := s.found_in_bw + 1 },
        o ++ [orphanDesc item.name l.username], []⟩ := by
  rcases hm with hm | hm <;> simp [processItem, hl, ht, hne, hm]

/-! ### C2: dry-run is a pure preview -/

/-- C2:  In dry-run mode, whatever the mode switch, a matched record
issues no external command and leaves the success and failure counters at
their prior values. -/
theorem dry_run_frame (clear : Bool) (exec : Exec) (idx : Index) (item : BwItem)
    (l : BwLogin) (t : PyStr) (s : Stats) (o : List PyStr) (id : PyStr)
    (hl : item.login = some l) (ht : l.totp = some t) (hne : t ≠ [])
    (hm : find_match item.name l.username idx = some id) (hid : id ≠ []) :
    (processItem true clear exec idx item s o).cmds = [] ∧
      (processItem true clear exec idx item s o).stats.success = s.success ∧
      (processItem true clear exec idx item s o).stats.fail = s.fail := by
  cases clear <;> simp [processItem, hl, ht, hne, hm, hid]

/-- Witness for `dry_run_frame`: concrete matched record, both counters
kept, no command. -/
theorem dry_run_frame_witness :
    (processItem true true okExec wIdx wItem ⟨1, 2, 3, 4⟩ []).cmds = [] ∧
      (processItem true true okExec wIdx wItem ⟨1, 2, 3, 4⟩ []).stats.success = 3 ∧
      (processItem true true okExec wIdx wItem ⟨1, 2, 3, 4⟩ []).stats.fail = 4 :=
  dry_run_frame true okExec wIdx wItem ⟨some (pystr "alice"), some (pystr "S")⟩
    (pystr "S") ⟨1, 2, 3, 4⟩ [] (pystr "X1") rfl rfl (by decide) (by decide) (by decide)

/-! ### C4: classification of delete-field failures in live clear-mode -/

/-- C4:  In live clear-mode, when the delete-field command fails, a
stderr containing `field not found` increments neither counter, and any
other failure increments the failure counter (and never the success
counter). -/
theorem clear_failure_classification (exec : Exec) (idx : Index) (item : BwItem)
    (l : BwLogin) (t id st : PyStr) (s : Stats) (o : List PyStr)
    (hl : item.login = some l) (ht : l.totp = some t) (hne : t ≠ [])
    (hm : find_match item.name l.username idx = some id) (hid : id ≠ [])
    (herr : exec (deleteCmd id) = .err st) :
    processItem false true exec idx item s o =
      ⟨{ s with
          found_in_bw := s.found_in_bw + 1,
          matched := s.matched + 1,
          fail := if containsSub (pystr "field not found") st then s.fail else s.fail + 1 },
        o, [deleteCmd id]⟩ := by
  by_cases hc : containsSub (pystr "field not found") st = true <;>
    simp [processItem, hl, ht, hne, hm, hid, herr, hc]

/-- The external CLI oracle that always fails with a generic error. -/
def genericErrExec : Exec := fun _ => .err (pystr "unexpected error")

/-- The external CLI oracle that always fails reporting an absent field. -/
def benignErrExec : Exec := fun _ => .err (pystr "error: field not found in item")

/-- Witness for `clear_failure_classification`: a benign delete failure
leaves both counters at zero; a non-benign one increments only the
failure counter. -/
theorem clear_failure_classification_witness :
    processItem false true benignErrExec wIdx wItem ⟨0, 0, 0, 0⟩ [] =
        ⟨⟨1, 1, 0, 0⟩, [], [deleteCmd (pystr "X1")]⟩ ∧
      processItem false true genericErrExec wIdx wItem ⟨0, 0, 0, 0⟩ [] =
        ⟨⟨1, 1, 0, 1⟩, [], [deleteCmd (pystr "X1")]⟩ := by
  constructor
  · rw [clear_failure_classification benignErrExec wIdx wItem
      ⟨some (pystr "alice"), some (pystr "S")⟩ (pystr "S") (pystr "X1")
      (pystr "error: field not found in item") ⟨0, 0, 0, 0⟩ [] rfl rfl (by decide)
      (by decide) (by decide) rfl]
    decide
  · rw [clear_failure_classification genericErrExec wIdx wItem
      ⟨some (pystr "alice"), some (pystr "S")⟩ (pystr "S") (pystr "X1")
      (pystr "unexpected error") ⟨0, 0, 0, 0⟩ [] rfl rfl (by decide) (by decide)
      (by decide) rfl]
    decide

/-! ### C9: items without a secret are skipped entirely -/

/-- C9:  A source item with no login object, or whose one-time-password
field is absent or the empty string, is skipped: counters, orphans and the
command trace are untouched. -/
theorem secretless_item_skipped (dry_run clear : Bool) (exec : Exec) (idx : Index)
    (item : BwItem) (s : Stats) (o : List PyStr)
    (h : item.login = none ∨
      ∃ l, item.login = some l ∧ (l.totp = none ∨ l.totp = some [])) :
    processItem dry_run clear exec idx item s o = ⟨s, o, []⟩ := by
  rcases h with h | ⟨l, hl, h2 | h2⟩
  · simp [processItem, h]
  · simp [processItem, hl, h2]
  · simp [processItem, hl, h2]

/-- Witness for `secretless_item_skipped`: an item with an empty-string
secret changes nothing. -/
theorem secretless_item_skipped_witness :
    processItem false false okExec wIdx
        ⟨some (pystr "Example"), some ⟨some (pystr "alice"), some []⟩⟩
        ⟨5, 6, 7, 8⟩ [] =
      ⟨⟨5, 6, 7, 8⟩, [], []⟩ :=
  secretless_item_skipped false false okExec wIdx
    ⟨some (pystr "Example"), some ⟨some (pystr "alice"), some []⟩⟩ ⟨5, 6, 7, 8⟩ []
    (Or.inr ⟨⟨some (pystr "alice"), some []⟩, rfl, Or.inr rfl⟩)

/-! ### C5: every discovered record is counted as matched or orphaned -/

lemma processItem_discovered_eq (dry_run clear : Bool) (exec : Exec) (idx : Index)
    (item : BwItem) (s : Stats) (o : List PyStr)
    (h : s.found_in_bw = s.matched + o.length) :
    (processItem dry_run clear exec idx item s o).stats.found_in_bw =
      (processItem dry_run clear exec idx item s o).stats.matched +
        (processItem dry_run clear exec idx item s o).orphans.length := by
  cases hlg : item.login with
  | none => simp [processItem, hlg, h]
  | some l =>
    cases htp : l.totp with
    | none => simp [processItem, hlg, htp, h]
    | some t =>
      by_cases hte : t = []
      · simp [processItem, hlg, htp, hte, h]
      · cases hm : find_match item.name l.username idx with
        | none =>
          rw [processItem_orphan_frame dry_run clear exec idx item s o l t hlg htp hte
            (Or.inl hm)]
          simp [h]
          omega
        | some id =>
          by_cases hid : id = []
          · subst hid
            rw [processItem_orphan_frame dry_run clear exec idx item s o l t hlg htp hte
              (Or.inr hm)]
            simp [h]
            omega
          · obtain ⟨h1, h2, h3⟩ :=
              processItem_matched_frame dry_run clear exec idx item s o l t id hlg htp hte hm hid
            rw [h1, h2, h3, h]
            omega

lemma runLoop_discovered_eq (dry_run clear : Bool) (exec : Exec) (idx : Index) :
    ∀ (items : List BwItem) (s : Stats) (o : List PyStr) (cs : List (List PyStr)),
      s.found_in_bw = s.matched + o.length →
      (runLoop dry_run clear exec idx items s o cs).stats.found_in_bw =
        (runLoop dry_run clear exec idx items s o cs).stats.matched +
          (runLoop dry_run clear exec idx items s o cs).orphans.length := by
  intro items
  induction items with
  | nil => intro s o cs h; simpa [runLoop] using h
  | cons it rest ih =>
    intro s o cs h
    simp only [runLoop]
    exact ih _ _ _ (processItem_discovered_eq dry_run clear exec idx it s o h)

/-- An index whose single candidate under title `T` has the empty string
as its id (Python: an item whose `id` is falsy). -/
def cexIdx : Index := [(some (pystr "T"), [⟨[], []⟩])]

/-- A source item titled `T` with no username and secret `S`. -/
def cexItem : BwItem := ⟨some (pystr "T"), some ⟨none, some (pystr "S")⟩⟩

/-- C5 counterexample:  The matcher *returns an identifier* (the
candidate's empty-string id), yet the record is not counted in the
matched counter: `if op_id:` treats the falsy id as no match and the
record is appended to the orphan list instead. -/
theorem matcher_id_yet_orphaned :
    find_match (some (pystr "T")) none cexIdx = some [] ∧
      (processItem false false okExec cexIdx cexItem ⟨0, 0, 0, 0⟩ []).stats.found_in_bw = 1 ∧
      (processItem false false okExec cexIdx cexItem ⟨0, 0, 0, 0⟩ []).stats.matched = 0 ∧
      (processItem false false okExec cexIdx cexItem ⟨0, 0, 0, 0⟩ []).orphans.length = 1 := by
  refine ⟨by decide, ?_, ?_, ?_⟩ <;> decide

/-- C5 amended:  Every source record carrying a secret increments the
discovered counter exactly once and then contributes to exactly one of:
the matched counter (when the matcher returns a *non-empty* identifier)
or the orphan list (one appended descriptor, no counter change, no
external command, when the matcher returns unmatched *or an empty
identifier*); hence, over a whole loop from zeroed statistics, discovered
equals matched plus the number of orphans. -/
theorem discovered_splits_matched_or_orphan :
    (∀ (dry_run clear : Bool) (exec : Exec) (idx : Index) (item : BwItem)
        (s : Stats) (o : List PyStr) (l : BwLogin) (t : PyStr),
      item.login = some l → l.totp = some t → t ≠ [] →
      ((processItem dry_run clear exec idx item s o).stats.found_in_bw = s.found_in_bw + 1 ∧
        ((∃ id, find_match item.name l.username idx = some id ∧ id ≠ [] ∧
            (processItem dry_run clear exec idx item s o).stats.matched = s.matched + 1 ∧
            (processItem dry_run clear exec idx item s o).orphans = o) ∨
          ((find_match item.name l.username idx = none ∨
              find_match item.name l.username idx = some []) ∧
            (processItem dry_run clear exec idx item s o).stats.matched = s.matched ∧
            (processItem dry_run clear exec idx item s o).orphans =
              o ++ [orphanDesc item.name l.username] ∧
            (processItem dry_run clear exec idx item s o).stats.success = s.success ∧
            (processItem dry_run clear exec idx item s o).stats.fail = s.fail ∧
            (processItem dry_run clear exec idx item s o).cmds = [])))) ∧
    (∀ (dry_run clear : Bool) (exec : Exec) (idx : Index) (items : List BwItem),
      (runLoop dry_run clear exec idx items ⟨0, 0, 0, 0⟩ [] []).stats.found_in_bw =
        (runLoop dry_run clear exec idx items ⟨0, 0, 0, 0⟩ [] []).stats.matched +
          (runLoop dry_run clear exec idx items ⟨0, 0, 0, 0⟩ [] []).orphans.length) := by
  constructor
  · intro dry_run clear exec idx item s o l t hl ht hne
    cases hm : find_match item.name l.username idx with
    | none =>
      rw [processItem_orphan_frame dry_run clear exec idx item s o l t hl ht hne (Or.inl hm)]
      exact ⟨rfl, Or.inr ⟨Or.inl rfl, rfl, rfl, rfl, rfl, rfl⟩⟩
    | some id =>
      by_cases hid : id = []
      · subst hid
        rw [processItem_orphan_frame dry_run clear exec idx item s o l t hl ht hne (Or.inr hm)]
        exact ⟨rfl, Or.inr ⟨Or.inr rfl, rfl, rfl, rfl, rfl, rfl⟩⟩
      · obtain ⟨h1, h2, h3⟩ :=
          processItem_matched_frame dry_run clear exec idx item s o l t id hl ht hne hm hid
        exact ⟨h1, Or.inl ⟨id, rfl, hid, h2, h3⟩⟩
  · intro dry_run clear exec idx items
    exact runLoop_discovered_eq dry_run clear exec idx items ⟨0, 0, 0, 0⟩ [] _ rfl

/-- Witness for `discovered_splits_matched_or_orphan`: its per-record part
applied to a concrete matched record, and its loop part at that record. -/
theorem discovered_splits_matched_or_orphan_witness :
    (processItem true false okExec wIdx wItem ⟨0, 0, 0, 0⟩ []).stats.found_in_bw = 0 + 1 ∧
      (runLoop true false okExec wIdx [wItem] ⟨0, 0, 0, 0⟩ [] []).stats.found_in_bw =
        (runLoop true false okExec wIdx [wItem] ⟨0, 0, 0, 0⟩ [] []).stats.matched +
          (runLoop true false okExec wIdx [wItem] ⟨0, 0, 0, 0⟩ [] []).orphans.length :=
  ⟨(discovered_splits_matched_or_orphan.1 true false okExec wIdx wItem ⟨0, 0, 0, 0⟩ []
      ⟨some (pystr "alice"), some (pystr "S")⟩ (pystr "S") rfl rfl (by decide)).1,
    discovered_splits_matched_or_orphan.2 true false okExec wIdx [wItem]⟩

/-! ### C8: live mode mutates nothing without confirmation -/

/-- C8:  In live (non-dry-run) mode, a confirmation input whose
lowercased form is not `yes` aborts the run with an empty command trace:
neither the index queries nor any mutation is issued. -/
theorem live_confirmation_gate (clear : Bool) (confirm : PyStr) (exec : Exec)
    (idx : Index) (items : List BwItem)
    (h : pyLower confirm ≠ pystr "yes") :
    mainRun false clear confirm exec idx items = .aborted [] := by
  simp [mainRun, h]

/-- Witness for `live_confirmation_gate` at the concrete input `no`. -/
theorem live_confirmation_gate_witness :
    pyLower (pystr "no") ≠ pystr "yes" ∧
      mainRun false false (pystr "no") okExec wIdx [wItem] = .aborted [] :=
  ⟨by decide, live_confirmation_gate false (pystr "no") okExec wIdx [wItem] (by decide)⟩
